import Mathlib

/- Shallow embedding of src/gpam_training/multilabel_training.py (class
MultilabelTraining).  The trainer's own orchestration code is translated
line by line; the external collaborators the module calls into — pandas
frames, the sklearn split/vectorizer/classifier, the repository's
DataframePreprocessing and metrics helpers (imported from modules that are
not under src/), and pickle — are modelled at the level of the observable
contracts the spec states for them, each marked `Modelled from the spec`.
Python attributes that may be unset are `Option` fields; a method is a
function from the trainer to a result paired with the post-state trainer,
so that attribute assignments made before a raised error survive, as they
do on a mutated Python object. -/

namespace GpamTraining

/-- A pandas column label as this module uses them: either a string name
(the text column, the raw `tema` column) or an integer theme id (one
binarized label column per theme). -/
inductive ColName where
  | str (s : String)
  | int (n : Int)
deriving DecidableEq

/-- A pandas cell: a text value or an integer value. -/
inductive Cell where
  | str (s : String)
  | int (n : Int)
deriving DecidableEq

/-- The attribute names whose absence surfaces as a Python AttributeError. -/
inductive AttrName where
  | y_columns_names
  | X_train
  | y_train
  | X_test
  | y_test
deriving DecidableEq

/-- The ValueError shapes raised by the modelled sklearn collaborators. -/
inductive ValueErr where
  | stratification
  | featureMismatch
  | notFitted
  | raggedRows
  | sampleMismatch
  | nonNumericCell
  | nonTextCell
deriving DecidableEq

/-- The Python exceptions this embedding distinguishes. -/
inductive PyErr where
  | keyError (c : ColName)
  | attributeError (a : AttrName)
  | valueError (v : ValueErr)
deriving DecidableEq

deriving instance DecidableEq for Except

/-- A pandas DataFrame: ordered column labels and rows aligned with them. -/
structure DataFrame where
  columns : List ColName
  rows : List (List Cell)
deriving DecidableEq

/-- pandas `DataFrame.empty`: true when either axis has length zero. -/
def DataFrame.empty (df : DataFrame) : Bool :=
  df.rows.isEmpty || df.columns.isEmpty

/-- pandas `df[c]`: the column as a series, KeyError when the label is absent. -/
def DataFrame.col (df : DataFrame) (c : ColName) : Except PyErr (List Cell) :=
  match df.columns.findIdx? (fun c2 => c2 = c) with
  | some i => .ok (df.rows.map (fun r => r.getD i (.int 0)))
  | none => .error (.keyError c)

/-- pandas `df[cs]` for a list of labels: the sub-frame with exactly those
columns in that order, KeyError when one is absent. -/
def DataFrame.subframe (df : DataFrame) (cs : List ColName) : Except PyErr DataFrame :=
  match cs.find? (fun c => !(df.columns.contains c)) with
  | some c => .error (.keyError c)
  | none =>
    .ok { columns := cs,
          rows := df.rows.map (fun r => cs.map (fun c =>
            match df.columns.findIdx? (fun c2 => c2 = c) with
            | some i => r.getD i (.int 0)
            | none => .int 0)) }

def Cell.asInt : Cell → Except PyErr Int
  | .int n => .ok n
  | .str _ => .error (.valueError .nonNumericCell)

def Cell.asStr : Cell → Except PyErr String
  | .str s => .ok s
  | .int _ => .error (.valueError .nonTextCell)

/-- A frame handed to a numeric sklearn entry point is read as a matrix;
a text cell in it raises. -/
def DataFrame.toMatrix (df : DataFrame) : Except PyErr (List (List Int)) :=
  df.rows.mapM (fun r => r.mapM Cell.asInt)

/-- Modelled from the spec: the Feature Vectorizer collaborator is sklearn's
HashingVectorizer(n_features = 2 ** 14) — a stateless hashing transform of
fixed output width, no learned vocabulary, collision-based.  The concrete
hash below stands for the library's token hash; what matters to the claims
is that the transform is a pure function of the text and the width. -/
def hashTok (nf : Nat) (t : String) : Nat :=
  t.data.foldl (fun a c => (a * 31 + c.toNat) % (max nf 1)) 0 % max nf 1

/-- Whitespace-split a character list (the char-level body of
`str.split(" ")`). -/
def splitTokens : List Char → List (List Char)
  | [] => [[]]
  | c :: rest =>
    let r := splitTokens rest
    if c = ' ' then [] :: r
    else (c :: r.headD []) :: r.tail

def tokenize (s : String) : List String :=
  ((splitTokens s.data).filter (fun t => !t.isEmpty)).map (fun cs => { data := cs })

def bump (v : List Int) (i : Nat) : List Int :=
  v.set i (v.getD i 0 + 1)

/-- One text to one fixed-width count vector. -/
def vectorizeText (nf : Nat) (s : String) : List Int :=
  (tokenize s).foldl (fun v t => bump v (hashTok nf t)) (List.replicate nf 0)

/-- Modelled from the spec: the Multi-Output Classifier collaborator —
sklearn's MultiOutputClassifier over PassiveAggressiveClassifier
(random_state = 42): one binary linear estimator per label column, a
recorded fitted feature width, and fit / partial-fit / predict entry points
that validate sample counts and feature widths as the library does.  The
numeric update is a deterministic integer surrogate for the library's float
arithmetic, which the spec scopes out; every entry point is a pure function
of the classifier state and its arguments. -/
structure MOClassifier where
  n_features_in : Option Nat
  coefs : List (List Int)
deriving DecidableEq

def dot (w x : List Int) : Int :=
  (List.zipWith (fun a b => a * b) w x).sum

/-- One additive per-sample update of one estimator's weights. -/
def fitStep (x : List Int) (yv : Int) (w : List Int) : List Int :=
  List.zipWith (fun wi xi => wi + (2 * yv - 1) * xi) w x

def matWidthOk (X : List (List Int)) (n : Nat) : Bool :=
  X.all (fun r => r.length = n)

def foldSamples (X y : List (List Int)) (j : Nat) (w : List Int) : List Int :=
  (List.zip X y).foldl (fun w2 p => fitStep p.1 (p.2.getD j 0) w2) w

/-- sklearn `fit`: full-batch, resets the ensemble. -/
def MOClassifier.fit (_c : MOClassifier) (X y : List (List Int)) :
    Except PyErr MOClassifier :=
  if X.length ≠ y.length then .error (.valueError .sampleMismatch)
  else
    let n := (X.headD []).length
    let k := (y.headD []).length
    if !(matWidthOk X n) || !(matWidthOk y k) then .error (.valueError .raggedRows)
    else .ok { n_features_in := some n,
               coefs := (List.range k).map (fun j =>
                 foldSamples X y j (List.replicate n 0)) }

/-- sklearn `partial_fit`: incremental, accumulates onto the existing
per-label estimators; the `classes` argument is the fixed class set the
caller supplies on every call. -/
def MOClassifier.partial_fit (c : MOClassifier) (X y : List (List Int))
    (_classes : List Int) : Except PyErr MOClassifier :=
  if X.length ≠ y.length then .error (.valueError .sampleMismatch)
  else
    match c.n_features_in with
    | none =>
      let n := (X.headD []).length
      let k := (y.headD []).length
      if !(matWidthOk X n) || !(matWidthOk y k) then .error (.valueError .raggedRows)
      else .ok { n_features_in := some n,
                 coefs := (List.range k).map (fun j =>
                   foldSamples X y j (List.replicate n 0)) }
    | some n =>
      if !(matWidthOk X n) || !(matWidthOk y c.coefs.length) then
        .error (.valueError .raggedRows)
      else .ok { n_features_in := some n,
                 coefs := (List.range c.coefs.length).map (fun j =>
                   foldSamples X y j (c.coefs.getD j (List.replicate n 0))) }

/-- sklearn `predict`: errors when unfitted or when the input width differs
from the fitted feature width; otherwise thresholds each estimator's score. -/
def MOClassifier.predict (c : MOClassifier) (X : List (List Int)) :
    Except PyErr (List (List Int)) :=
  match c.n_features_in with
  | none => .error (.valueError .notFitted)
  | some n =>
    if matWidthOk X n then
      .ok (X.map (fun x => c.coefs.map (fun w => if 0 ≤ dot w x then 1 else 0)))
    else .error (.valueError .featureMismatch)

/-- One label's multi-label counts in the metrics report. -/
structure LabelStats where
  tp : Nat
  fp : Nat
  fnc : Nat
deriving DecidableEq

def pairCount (t p : List (List Int)) (j : Nat) (a b : Int) : Nat :=
  (List.zip t p).countP (fun r => (r.1.getD j 0 == a) && (r.2.getD j 0 == b))

/-- Modelled from the spec: `get_multilabel_metrics` is imported from
`.metrics`, which is not under src/; the spec says only that it is a
precision/recall/F1-style multi-label report delegated to an external
collaborator.  Here: the per-label confusion counts that report is built
from, computed from the held-out labels and the predictions. -/
def get_multilabel_metrics (y_true y_pred : List (List Int)) : List LabelStats :=
  (List.range (y_true.headD []).length).map (fun j =>
    { tp := pairCount y_true y_pred j 1 1,
      fp := pairCount y_true y_pred j 0 1,
      fnc := pairCount y_true y_pred j 1 0 })

/-- The raw label column name the incremental paths scan. -/
def temaCol : ColName := .str "tema"

def labelVocab (target_themes : List Int) (other : Int) : List Int :=
  target_themes ++ [other]

/-- One raw label, binarized against the vocabulary: one 0/1 cell per target
theme, then the catch-all cell absorbing any label outside the target list. -/
def binarizeLabel (target_themes : List Int) (tema : Int) : List Cell :=
  target_themes.map (fun th => Cell.int (if tema = th then 1 else 0))
    ++ [Cell.int (if target_themes.contains tema then 0 else 1)]

/-- Modelled from the spec: `DataframePreprocessing` is imported from
`.dataframe_preprocessing`, which is not under src/.  Per the spec it
converts raw rows into a cleaned frame — the text column kept, one binary
(multi-hot) column per vocabulary entry added, the vocabulary being the
fixed ordered target label list followed by the one catch-all label — and
`distinct_themes` is that label-column list.  Each raw row is modelled as
carrying one raw label in its `tema` column; the `group_processes`,
`is_incremental_training`, `is_parquet` and `labels_freq` knobs the source
passes steer behaviour the spec leaves unspecified and are omitted. -/
structure DataframePreprocessing where
  processed_df : DataFrame
  distinct_themes : List ColName
deriving DecidableEq

def DataframePreprocessing.process (df : DataFrame) (x_column_name : String)
    (target_themes : List Int) (other : Int) :
    Except PyErr DataframePreprocessing :=
  match df.col (.str x_column_name) with
  | .error e => .error e
  | .ok texts =>
  match df.col temaCol with
  | .error e => .error e
  | .ok temaCells =>
  match temaCells.mapM Cell.asInt with
  | .error e => .error e
  | .ok temas =>
    .ok { processed_df :=
            { columns := .str x_column_name
                :: (labelVocab target_themes other).map ColName.int,
              rows := List.zipWith (fun t v => t :: binarizeLabel target_themes v)
                texts temas },
          distinct_themes := (labelVocab target_themes other).map ColName.int }

/-- Modelled from the spec: `DataframePreprocessing.get_unique_binarized_labels`
(not under src/) re-reads the whole source once and scans its raw label
(`tema`) column across the entire source, returning the binarized class set
— each distinct raw label, bucketed into the catch-all when outside the
target list — together with the per-raw-label frequency table. -/
def get_unique_binarized_labels (columns : List ColName) (rows : List (List Cell))
    (target_themes : List Int) (other : Int) :
    Except PyErr (List Int × List (Int × Nat)) :=
  match (DataFrame.mk columns rows).col temaCol with
  | .error e => .error e
  | .ok temaCells =>
  match temaCells.mapM Cell.asInt with
  | .error e => .error e
  | .ok temas =>
    .ok ((temas.map (fun t => if target_themes.contains t then t else other)).dedup,
         temas.dedup.map (fun t => (t, temas.count t)))

/-- `MultilabelTraining.DEFAULT_TARGET_THEMES` from the source. -/
def DEFAULT_TARGET_THEMES : List Int :=
  [0, 5, 6, 26, 33, 139, 163, 232, 313, 339, 350, 406, 409, 555, 589, 597,
   634, 660, 695, 729, 766, 773, 793, 800, 810, 852, 895, 951, 975]

/-- `MultilabelTraining.OTHER_THEMES_VALUE` from the source. -/
def OTHER_THEMES_VALUE : Int := 4242

/-- `MultilabelTraining.X_COLUMN_NAME` from the source. -/
def X_COLUMN_NAME : String := "page_text_extract"

/-- The trainer's state: the constructor-stored configuration and every
instance attribute the methods assign.  Attributes a run may leave unset
(`dp`, `y_columns_names`, the train/test slots, `y_pred`) are Options. -/
structure MultilabelTraining where
  is_incremental_training : Bool
  mo_classifier : MOClassifier
  n_features : Nat
  target_themes : List Int
  other_themes_value : Int
  group_processes : Bool
  x_column_name : String
  df : DataFrame
  dp : Option DataframePreprocessing
  y_columns_names : Option (List ColName)
  X_train : Option (List Cell)
  X_test : Option (List Cell)
  y_train : Option DataFrame
  y_test : Option DataFrame
  y_pred : Option (List (List Int))
deriving DecidableEq

/-- The state `__init__` builds before `_initialize_dataframe` runs. -/
def baseTrainer (df : DataFrame) (x_column_name : String) (group_processes : Bool)
    (n_features : Nat) (target_themes : List Int) (other_themes_value : Int)
    (is_incremental_training : Bool) : MultilabelTraining :=
  { is_incremental_training := is_incremental_training,
    mo_classifier := { n_features_in := none, coefs := [] },
    n_features := n_features,
    target_themes := target_themes,
    other_themes_value := other_themes_value,
    group_processes := group_processes,
    x_column_name := x_column_name,
    df := df,
    dp := none,
    y_columns_names := none,
    X_train := none,
    X_test := none,
    y_train := none,
    y_test := none,
    y_pred := none }

/-- `_initialize_dataframe` (src lines 75-85): a non-empty initial frame is
preprocessed at once, the derived label-column list becomes
`y_columns_names` and the processed frame replaces `df`; an empty frame is
stored as-is, leaving `dp` and `y_columns_names` unset. -/
def MultilabelTraining._initialize_dataframe (st : MultilabelTraining)
    (df : DataFrame) : Except PyErr MultilabelTraining :=
  if !df.empty then
    match DataframePreprocessing.process df st.x_column_name st.target_themes
        st.other_themes_value with
    | .error e => .error e
    | .ok dp =>
      .ok { st with dp := some dp,
                    y_columns_names := some dp.distinct_themes,
                    df := dp.processed_df }
  else .ok { st with df := df }

/-- `__init__` (src lines 54-73): store the configuration, then
`_initialize_dataframe`. -/
def MultilabelTraining.init (df : DataFrame) (x_column_name : String)
    (group_processes : Bool) (n_features : Nat) (target_themes : List Int)
    (other_themes_value : Int) (is_incremental_training : Bool) :
    Except PyErr MultilabelTraining :=
  MultilabelTraining._initialize_dataframe
    (baseTrainer df x_column_name group_processes n_features target_themes
      other_themes_value is_incremental_training) df

/-- Whether every stratification class (label-combination row) of `rows` has
at least 2 members. -/
def stratifyOk (rows : List (List Cell)) : Bool :=
  rows.all (fun r => 2 ≤ rows.count r)

/-- The indices the held-out test partition takes: every fifth row,
ceil(n/5) = 20% of n rows. -/
def testIdx (n : Nat) : List Nat :=
  (List.range n).filter (fun i => i % 5 = 0)

/-- The indices the train partition keeps: the other 80%. -/
def trainIdx (n : Nat) : List Nat :=
  (List.range n).filter (fun i => i % 5 ≠ 0)

/-- Modelled from the spec: sklearn's
`train_test_split(X, y, stratify=y, test_size=0.2, random_state=42)`.
It raises the stratification ValueError when the least-populated label
combination has fewer than 2 members; otherwise the partition is a
deterministic function of the inputs and the fixed seed, the held-out test
part taking ceil(n/5) of the n rows and the train part the rest.  The
concrete index choice stands for the seeded stratified permutation, which
the spec scopes out; what the model preserves is the failure condition,
determinism in (X, y, seed), and the 80/20 sizes. -/
def train_test_split (X : List Cell) (y : DataFrame) (_seed : Nat) :
    Except PyErr (List Cell × List Cell × DataFrame × DataFrame) :=
  if stratifyOk y.rows then
    .ok ((trainIdx X.length).map (fun i => X.getD i (.int 0)),
         (testIdx X.length).map (fun i => X.getD i (.int 0)),
         { columns := y.columns, rows := (trainIdx X.length).map (fun i => y.rows.getD i []) },
         { columns := y.columns, rows := (testIdx X.length).map (fun i => y.rows.getD i []) })
  else .error (.valueError .stratification)

/-- `_split` (src lines 87-91): one stratified 80/20 split at the fixed seed
42, assigning all four partition slots. -/
def MultilabelTraining._split (st : MultilabelTraining) (X : List Cell)
    (y : DataFrame) : Except PyErr Unit × MultilabelTraining :=
  match train_test_split X y 42 with
  | .error e => (.error e, st)
  | .ok (xtr, xte, ytr, yte) =>
    (.ok (), { st with X_train := some xtr, X_test := some xte,
                       y_train := some ytr, y_test := some yte })

/-- `_vectorize` (src lines 93-95): hash-vectorize a text series. -/
def MultilabelTraining._vectorize (st : MultilabelTraining) (X : List Cell) :
    Except PyErr (List (List Int)) :=
  X.mapM (fun c => (Cell.asStr c).map (vectorizeText st.n_features))

/-- `train` (src lines 97-111), state-passing: the returned trainer carries
every attribute assignment made before a raised error.  Note the predict
step: the source passes `self.y_test` — the held-out label frame — to
`mo_classifier.predict`, not the vectorized held-out text. -/
def MultilabelTraining.train (st : MultilabelTraining) (split_df : Bool) :
    Except PyErr (Option (List LabelStats)) × MultilabelTraining :=
  match st.df.col (.str st.x_column_name) with
  | .error e => (.error e, st)
  | .ok xt =>
  match st.y_columns_names with
  | none => (.error (.attributeError .y_columns_names), st)
  | some yc =>
  match st.df.subframe yc with
  | .error e => (.error e, st)
  | .ok yt =>
  let st1 := { st with X_train := some xt, y_train := some yt }
  let step : Except PyErr Unit × MultilabelTraining :=
    if split_df then st1._split xt yt else (.ok (), st1)
  match step with
  | (.error e, st2) => (.error e, st2)
  | (.ok _, st2) =>
  match st2.X_train with
  | none => (.error (.attributeError .X_train), st2)
  | some xtr =>
  match st2._vectorize xtr with
  | .error e => (.error e, st2)
  | .ok vec =>
  match st2.y_train with
  | none => (.error (.attributeError .y_train), st2)
  | some ytr =>
  match ytr.toMatrix with
  | .error e => (.error e, st2)
  | .ok ytrM =>
  match st2.mo_classifier.fit vec ytrM with
  | .error e => (.error e, st2)
  | .ok clf =>
  let st3 := { st2 with mo_classifier := clf }
  if split_df then
    match st3.y_test with
    | none => (.error (.attributeError .y_test), st3)
    | some yte =>
    match yte.toMatrix with
    | .error e => (.error e, st3)
    | .ok yteM =>
    match st3.mo_classifier.predict yteM with
    | .error e => (.error e, st3)
    | .ok y_pred =>
      (.ok (some (get_multilabel_metrics yteM y_pred)),
       { st3 with y_pred := some y_pred })
  else (.ok none, st3)

/-- `predict` (src lines 163-164): vectorize whatever occupies the held-out
test slot and predict on it; an unset slot surfaces as an AttributeError,
with no explicit precondition check. -/
def MultilabelTraining.predict (st : MultilabelTraining) :
    Except PyErr (List (List Int)) × MultilabelTraining :=
  match st.X_test with
  | none => (.error (.attributeError .X_test), st)
  | some x =>
    match st._vectorize x with
    | .error e => (.error e, st)
    | .ok v => (st.mo_classifier.predict v, st)

/-- `set_X_test` (src lines 166-167). -/
def MultilabelTraining.set_X_test (st : MultilabelTraining) (X : List Cell) :
    MultilabelTraining :=
  { st with X_test := some X }

/-- `set_y_test` (src lines 169-170). -/
def MultilabelTraining.set_y_test (st : MultilabelTraining) (y : DataFrame) :
    MultilabelTraining :=
  { st with y_test := some y }

/-- `_update_dataframe` (src lines 114-124): re-preprocess one chunk and
store both the preprocessor and the processed frame. -/
def MultilabelTraining._update_dataframe (st : MultilabelTraining)
    (df : DataFrame) : Except PyErr MultilabelTraining :=
  match DataframePreprocessing.process df st.x_column_name st.target_themes
      st.other_themes_value with
  | .error e => .error e
  | .ok dp => .ok { st with dp := some dp, df := dp.processed_df }

/-- A CSV source: the header line's column names and the data rows; the
incremental loop reads it through pd.read_csv windows. -/
structure CsvFile where
  header : List ColName
  rows : List (List Cell)
deriving DecidableEq

/-- One `pd.read_csv(path, nrows, skiprows, header=None, names=...)` window:
with skiprows = dskip + 1, skip the header line and the first `dskip` data
rows, then read at most `nrows` rows. -/
def readChunk (data : List (List Cell)) (nrows dskip : Nat) : List (List Cell) :=
  (data.drop dskip).take nrows

/-- The body of the `while True` loop's chunk sequence, with an explicit
recursion bound: each iteration advances the offset by `nrows`, so
`data.length + 1` iterations always suffice (`csvChunks_eq` below proves
the bound never cuts the loop short — the loop exits exactly at the first
empty read, which is its termination argument). -/
def csvChunksF : Nat → List (List Cell) → Nat → Nat → List (List (List Cell))
  | 0, _, _, _ => []
  | fuel + 1, data, nrows, dskip =>
    if (readChunk data nrows dskip).isEmpty then []
    else readChunk data nrows dskip :: csvChunksF fuel data nrows (dskip + nrows)

/-- The successive chunks the `while True` loop of `incremental_train`
processes before its `if df.empty: break` fires. -/
def csvChunks (data : List (List Cell)) (nrows dskip : Nat) :
    List (List (List Cell)) :=
  csvChunksF (data.length + 1) data nrows dskip

theorem chunk_progress (data : List (List Cell)) (nrows dskip : Nat)
    (hc : ¬ (readChunk data nrows dskip).isEmpty = true) :
    dskip < data.length ∧ 1 ≤ nrows := by
  simp only [readChunk, List.isEmpty_iff, List.take_eq_nil_iff, not_or,
    List.drop_eq_nil_iff] at hc
  omega

theorem csvChunksF_eq_of (data : List (List Cell)) (nrows : Nat) :
    ∀ fuel fuel2 dskip : Nat, data.length - dskip < fuel →
      data.length - dskip < fuel2 →
      csvChunksF fuel data nrows dskip = csvChunksF fuel2 data nrows dskip := by
  intro fuel
  induction fuel with
  | zero => intro fuel2 dskip h _; omega
  | succ f ih =>
    intro fuel2 dskip h h2
    cases fuel2 with
    | zero => omega
    | succ f2 =>
      simp only [csvChunksF]
      by_cases hc : (readChunk data nrows dskip).isEmpty = true
      · rw [if_pos hc, if_pos hc]
      · have hp := chunk_progress data nrows dskip hc
        rw [if_neg hc, if_neg hc, ih f2 (dskip + nrows) (by omega) (by omega)]

/-- The loop equation of the chunk sequence: exit at the first empty read,
otherwise process the chunk and advance the offset by `nrows`. -/
theorem csvChunks_eq (data : List (List Cell)) (nrows dskip : Nat) :
    csvChunks data nrows dskip =
      if (readChunk data nrows dskip).isEmpty then []
      else readChunk data nrows dskip :: csvChunks data nrows (dskip + nrows) := by
  have hL : csvChunks data nrows dskip =
      if (readChunk data nrows dskip).isEmpty then []
      else readChunk data nrows dskip ::
        csvChunksF data.length data nrows (dskip + nrows) := rfl
  rw [hL]
  by_cases hc : (readChunk data nrows dskip).isEmpty = true
  · rw [if_pos hc, if_pos hc]
  · have hp := chunk_progress data nrows dskip hc
    rw [if_neg hc, if_neg hc]
    exact congrArg _ (csvChunksF_eq_of data nrows data.length (data.length + 1)
      (dskip + nrows) (by omega) (by omega))

/-- The label-column selection list of the incremental loops:
`self.target_themes + [self.other_themes_value]`. -/
def yColsSelect (st : MultilabelTraining) : List ColName :=
  st.target_themes.map ColName.int ++ [ColName.int st.other_themes_value]

/-- The arguments of one `mo_classifier.partial_fit` call, as the loop body
hands them over: the column labels and values of the selected label frame,
the vectorized chunk text, and the class set supplied. -/
structure PartialFitCall where
  yCols : List ColName
  yMatrix : List (List Int)
  vector : List (List Int)
  classes : List Int
deriving DecidableEq

/-- The shared iteration body of `incremental_train` (src lines 131-142) and
`incremental_train_with_parquet` (src lines 151-159): `_update_dataframe` on
the chunk, select the text column and the fixed label column list, vectorize
and hand the pair to `partial_fit` with the pre-computed class set (the
parquet path's `reset_index` and densifying `toarray` are identities in this
model).  Returns the recorded call and the updated trainer. -/
def processChunk (st : MultilabelTraining) (header : List ColName)
    (classes : List Int) (chunkRows : List (List Cell)) :
    Except PyErr (PartialFitCall × MultilabelTraining) :=
  match st._update_dataframe { columns := header, rows := chunkRows } with
  | .error e => .error e
  | .ok st1 =>
  match st1.df.col (.str st1.x_column_name) with
  | .error e => .error e
  | .ok X =>
  match st1.df.subframe (yColsSelect st1) with
  | .error e => .error e
  | .ok yf =>
  match st1._vectorize X with
  | .error e => .error e
  | .ok vec =>
  match yf.toMatrix with
  | .error e => .error e
  | .ok ym =>
  match st1.mo_classifier.partial_fit vec ym classes with
  | .error e => .error e
  | .ok clf =>
    .ok ({ yCols := yf.columns, yMatrix := ym, vector := vec, classes := classes },
         { st1 with mo_classifier := clf })

/-- The chunk loop: one `processChunk` per chunk, stopping at the first
raised error with the model already partially updated by prior chunks. -/
def incFold (header : List ColName) (classes : List Int) :
    MultilabelTraining → List (List (List Cell)) →
    List PartialFitCall × Except PyErr Unit × MultilabelTraining
  | st, [] => ([], .ok (), st)
  | st, c :: rest =>
    match processChunk st header classes c with
    | .error e => ([], .error e, st)
    | .ok (call, st1) =>
      let r := incFold header classes st1 rest
      (call :: r.1, r.2)

/-- `incremental_train` (src lines 126-143): read the header, compute the
class set once — before the chunk loop — by scanning the raw label column of
the entire source, then loop over fixed-size row windows with an advancing
offset until an empty read breaks the loop, partial-fitting each chunk with
that same class set.  Returns the trace of partial_fit calls, the run's
outcome and the final trainer. -/
def MultilabelTraining.incremental_train (st : MultilabelTraining)
    (file : CsvFile) (nrows : Nat) :
    List PartialFitCall × Except PyErr Unit × MultilabelTraining :=
  match get_unique_binarized_labels file.header file.rows st.target_themes
      st.other_themes_value with
  | .error e => ([], .error e, st)
  | .ok (classes, _) => incFold file.header classes st (csvChunks file.rows nrows 0)

/-- A columnar source pre-partitioned into row groups sharing one schema. -/
structure ParquetFile where
  columns : List ColName
  row_groups : List (List (List Cell))
deriving DecidableEq

/-- `incremental_train_with_parquet` (src lines 145-160): class set and label
frequency computed once up front from the full columnar source, then one
preprocess/vectorize/partial_fit per row group with that same class set (the
per-group progress printing and display clearing are UI effects with no
bearing on the state and are omitted). -/
def MultilabelTraining.incremental_train_with_parquet (st : MultilabelTraining)
    (pf : ParquetFile) :
    List PartialFitCall × Except PyErr Unit × MultilabelTraining :=
  match get_unique_binarized_labels pf.columns pf.row_groups.flatten
      st.target_themes st.other_themes_value with
  | .error e => ([], .error e, st)
  | .ok (classes, _) => incFold pf.columns classes st pf.row_groups

/-- Modelled from the spec: `pickle.dumps` of the classifier ensemble — an
opaque serialized blob with no schema of its own.  Here: an executable
length-prefixed integer encoding of the classifier state; `pickle_loads`
is the matching parser, and the proved round-trip is the library contract
`get_pickle` relies on. -/
def encIntList (l : List Int) : List Int := (l.length : Int) :: l

def encMatrix (m : List (List Int)) : List Int :=
  (m.length : Int) :: (m.map encIntList).flatten

def encOptNat : Option Nat → List Int
  | none => [-1]
  | some n => [(n : Int)]

def pickle_dumps (c : MOClassifier) : List Int :=
  encOptNat c.n_features_in ++ encMatrix c.coefs

def takeExact : Nat → List Int → Option (List Int × List Int)
  | 0, bs => some ([], bs)
  | _ + 1, [] => none
  | n + 1, b :: bs => (takeExact n bs).map (fun p => (b :: p.1, p.2))

def decIntList : List Int → Option (List Int × List Int)
  | [] => none
  | n :: bs => if n < 0 then none else takeExact n.toNat bs

def decLists : Nat → List Int → Option (List (List Int) × List Int)
  | 0, bs => some ([], bs)
  | k + 1, bs =>
    match decIntList bs with
    | none => none
    | some (l, bs1) =>
      match decLists k bs1 with
      | none => none
      | some (ls, bs2) => some (l :: ls, bs2)

def decMatrix : List Int → Option (List (List Int) × List Int)
  | [] => none
  | n :: bs => if n < 0 then none else decLists n.toNat bs

def decOptNat : List Int → Option (Option Nat × List Int)
  | [] => none
  | n :: bs => if n < 0 then some (none, bs) else some (some n.toNat, bs)

/-- The inverse parser of `pickle_dumps` (pickle.loads). -/
def pickle_loads (bs : List Int) : Option MOClassifier :=
  match decOptNat bs with
  | none => none
  | some (nf, bs1) =>
    match decMatrix bs1 with
    | none => none
    | some (m, bs2) =>
      if bs2.isEmpty then some { n_features_in := nf, coefs := m } else none

/-- `get_pickle` (src lines 172-173): serialize the classifier ensemble;
no other state is read or written. -/
def MultilabelTraining.get_pickle (st : MultilabelTraining) :
    List Int × MultilabelTraining :=
  (pickle_dumps st.mo_classifier, st)

/- ------------------------------------------------------------------ -/
/- Lemmas -/

theorem takeExact_append (l r : List Int) : takeExact l.length (l ++ r) = some (l, r) := by
  induction l with
  | nil => rfl
  | cons a t ih => simp [takeExact, ih]

theorem decIntList_enc (l r : List Int) : decIntList (encIntList l ++ r) = some (l, r) := by
  have h0 : ¬ ((l.length : Int) < 0) := by omega
  have h1 : ((l.length : Int)).toNat = l.length := by omega
  simp only [encIntList, List.cons_append, decIntList, if_neg h0, h1, takeExact_append]

theorem decLists_enc (ls : List (List Int)) (r : List Int) :
    decLists ls.length ((ls.map encIntList).flatten ++ r) = some (ls, r) := by
  induction ls generalizing r with
  | nil => rfl
  | cons x xs ih =>
    simp only [List.map_cons, List.flatten_cons, List.length_cons, List.append_assoc,
      decLists, decIntList_enc, ih]

theorem decMatrix_enc (m : List (List Int)) (r : List Int) :
    decMatrix (encMatrix m ++ r) = some (m, r) := by
  have h0 : ¬ ((m.length : Int) < 0) := by omega
  have h1 : ((m.length : Int)).toNat = m.length := by omega
  simp only [encMatrix, List.cons_append, decMatrix, if_neg h0, h1, decLists_enc]

theorem pickle_loads_dumps (c : MOClassifier) : pickle_loads (pickle_dumps c) = some c := by
  obtain ⟨nf, cf⟩ := c
  have h := decMatrix_enc cf []
  rw [List.append_nil] at h
  cases nf with
  | none => simp [pickle_dumps, pickle_loads, encOptNat, decOptNat, h]
  | some n =>
    have h0 : ¬ ((n : Int) < 0) := by omega
    have h1 : ((n : Int)).toNat = n := by omega
    simp [pickle_dumps, pickle_loads, encOptNat, decOptNat, h, h0, h1]

/- ------------------------------------------------------------------ -/
/- Claim theorems -/

/-- Claim C8: serializing the classifier ensemble with `get_pickle` and
reloading the blob yields an ensemble equal to the original, so it produces
identical predictions on the same vectorized input. -/
theorem C8_get_pickle_roundtrip_preserves_predictions
    (st : MultilabelTraining) (v : List (List Int)) :
    pickle_loads (st.get_pickle).1 = some st.mo_classifier ∧
    (pickle_loads (st.get_pickle).1).map (fun c => c.predict v) =
      some (st.mo_classifier.predict v) := by
  refine ⟨pickle_loads_dumps st.mo_classifier, ?_⟩
  rw [MultilabelTraining.get_pickle, pickle_loads_dumps st.mo_classifier]
  rfl

/-- Claim C10: `predict` and `get_pickle` are read-only on the trainer: with
the (stateless, hashing) modelled vectorizer, the post-state trainer of
either call is the input trainer, every field included. -/
theorem C10_predict_and_get_pickle_are_readonly (st : MultilabelTraining) :
    (st.predict).2 = st ∧ (st.get_pickle).2 = st := by
  refine ⟨?_, rfl⟩
  unfold MultilabelTraining.predict
  cases hx : st.X_test with
  | none => rfl
  | some x => cases hv : st._vectorize x <;> simp [hv]

/-- Claim C6: `predict` vectorizes exactly the text held in the `X_test`
slot and returns the multi-output classifier's predictions on it; when no
prior call has established that slot it fails with the attribute-resolution
error, and `set_X_test` is the explicit setter that establishes the slot. -/
theorem C6_predict_reads_X_test_slot (st : MultilabelTraining) (x : List Cell) :
    (st.X_test = none → (st.predict).1 = .error (.attributeError .X_test)) ∧
    (st.X_test = some x →
      (st.predict).1 = (st._vectorize x).bind st.mo_classifier.predict) ∧
    (st.set_X_test x).X_test = some x := by
  refine ⟨fun h => ?_, fun h => ?_, rfl⟩
  · simp [MultilabelTraining.predict, h]
  · cases hv : st._vectorize x <;>
      simp [MultilabelTraining.predict, h, hv, Except.bind]

/-- Claim C6 witness: at one trainer whose test slot is unset, `predict`
raises the attribute error; after `set_X_test` on the same trainer, it
returns the classifier's predictions on the vectorized slot. -/
theorem C6_witness :
    ((baseTrainer (DataFrame.mk [] []) X_COLUMN_NAME true 4 [5, 6] 4242 false).predict).1 =
      .error (.attributeError .X_test) ∧
    (((baseTrainer (DataFrame.mk [] []) X_COLUMN_NAME true 4 [5, 6] 4242 false).set_X_test
        [Cell.str "aa"]).predict).1 =
      ((((baseTrainer (DataFrame.mk [] []) X_COLUMN_NAME true 4 [5, 6] 4242 false).set_X_test
        [Cell.str "aa"]))._vectorize
          [Cell.str "aa"]).bind
        ((((baseTrainer (DataFrame.mk [] []) X_COLUMN_NAME true 4 [5, 6] 4242 false).set_X_test
          [Cell.str "aa"])).mo_classifier.predict) := by
  constructor
  · exact (C6_predict_reads_X_test_slot
      (baseTrainer (DataFrame.mk [] []) X_COLUMN_NAME true 4 [5, 6] 4242 false) []).1 rfl
  · exact (C6_predict_reads_X_test_slot
      ((baseTrainer (DataFrame.mk [] []) X_COLUMN_NAME true 4 [5, 6] 4242 false).set_X_test
        [Cell.str "aa"]) [Cell.str "aa"]).2.1 rfl

/-- A concrete non-empty dataset: five rows, every row labelled with target
theme 5, so every label combination occurs five times and the stratified
split is feasible. -/
def c1df : DataFrame :=
  { columns := [.str X_COLUMN_NAME, temaCol],
    rows := [[.str "aa", .int 5], [.str "bb", .int 5], [.str "cc", .int 5],
             [.str "dd", .int 5], [.str "ee", .int 5]] }

/-- The trainer constructed on `c1df` with target themes [5, 6] and a
4-feature hashing vectorizer. -/
def c1Trainer : Except PyErr MultilabelTraining :=
  MultilabelTraining.init c1df X_COLUMN_NAME true 4 [5, 6] 4242 false

/-- Claim C1 divergence, evaluated: on this well-formed trainer the source's
`train(split_df=True)` reaches `self.mo_classifier.predict(self.y_test)` —
the held-out LABEL frame, 3 columns wide — after fitting on 4-feature hashed
vectors, so the run raises the feature-count mismatch instead of predicting
on the vectorized held-out text and returning the metrics report the claim
describes. -/
theorem C1_train_split_predicts_on_label_frame :
    c1Trainer.map (fun st => (st.train true).1) =
      .ok (.error (.valueError .featureMismatch)) := by decide

/-- The default empty initial frame: `pd.DataFrame()`, no columns, no rows. -/
def emptyDf : DataFrame := { columns := [], rows := [] }

/-- The trainer `__init__` builds from the default empty frame (the
`_initialize_dataframe` else-branch stores the frame unchanged). -/
def c9Trainer : MultilabelTraining :=
  baseTrainer emptyDf X_COLUMN_NAME true (2 ^ 14) DEFAULT_TARGET_THEMES
    OTHER_THEMES_VALUE false

/-- Claim C9 counterexample: constructing on the default empty frame does
leave the preprocessor and the label-column list unset, but the subsequent
`train` fails with a KEY error on the missing text column — evaluated left
to right, `self.df[self.x_column_name]` raises before `self.y_columns_names`
is ever touched — not with the attribute-resolution error the claim states. -/
theorem C9_counterexample_keyerror_not_attributeerror :
    MultilabelTraining.init emptyDf X_COLUMN_NAME true (2 ^ 14)
        DEFAULT_TARGET_THEMES OTHER_THEMES_VALUE false = .ok c9Trainer ∧
    c9Trainer.y_columns_names = none ∧ c9Trainer.dp = none ∧
    (c9Trainer.train false).1 = .error (.keyError (.str X_COLUMN_NAME)) ∧
    ¬ (c9Trainer.train false).1 = .error (.attributeError .y_columns_names) := by
  decide

/-- Claim C9 as amended: an empty initial dataset is stored unchanged with
the preprocessor and label-column list unset and no precondition check; a
subsequent `train` then fails with a key error on the text column when the
empty frame lacks that column (as the default empty frame does), and with
the attribute-resolution error on the missing label-column list when the
text column is present. -/
theorem C9_empty_init_leaves_schema_unset (df : DataFrame) (x : String)
    (gp : Bool) (nf : Nat) (tt : List Int) (ot : Int) (it : Bool)
    (h : df.empty = true) :
    ∃ st, MultilabelTraining.init df x gp nf tt ot it = .ok st ∧
      st.y_columns_names = none ∧ st.dp = none ∧ st.df = df ∧
      (ColName.str x ∉ df.columns →
        (st.train false).1 = .error (.keyError (.str x))) ∧
      (ColName.str x ∈ df.columns →
        (st.train false).1 = .error (.attributeError .y_columns_names)) := by
  refine ⟨{ baseTrainer df x gp nf tt ot it with df := df }, ?_, rfl, rfl, rfl, ?_, ?_⟩
  · simp [MultilabelTraining.init, MultilabelTraining._initialize_dataframe, h]
  · intro hx
    have hidx : df.columns.findIdx? (fun c2 => c2 = ColName.str x) = none := by
      rw [List.findIdx?_eq_none_iff]
      intro c hc
      simp
      intro hcx
      exact hx (hcx ▸ hc)
    simp [MultilabelTraining.train, DataFrame.col, baseTrainer, hidx]
  · intro hx
    have hidx : (df.columns.findIdx? (fun c2 => c2 = ColName.str x)).isSome := by
      rw [List.findIdx?_isSome]
      exact List.any_eq_true.mpr ⟨ColName.str x, hx, by simp⟩
    obtain ⟨i, hi⟩ := Option.isSome_iff_exists.mp hidx
    simp [MultilabelTraining.train, DataFrame.col, baseTrainer, hi]

/-- Claim C9 witness for the amended statement: at the default empty frame
the key-error branch fires concretely. -/
theorem C9_amended_witness :
    ∃ st, MultilabelTraining.init emptyDf X_COLUMN_NAME true 4 [5, 6] 4242 false =
        .ok st ∧
      st.y_columns_names = none ∧
      (st.train false).1 = .error (.keyError (.str X_COLUMN_NAME)) := by
  obtain ⟨st, hinit, hyc, -, -, hkey, -⟩ :=
    C9_empty_init_leaves_schema_unset emptyDf X_COLUMN_NAME true 4 [5, 6] 4242 false
      (by decide)
  exact ⟨st, hinit, hyc, hkey (by decide)⟩

theorem DataFrame.subframe_columns (df : DataFrame) (cs : List ColName)
    (f : DataFrame) (h : df.subframe cs = .ok f) : f.columns = cs := by
  unfold DataFrame.subframe at h
  split at h
  · cases h
  · injection h with h
    rw [← h]

theorem update_dataframe_fields (st : MultilabelTraining) (df : DataFrame)
    (st1 : MultilabelTraining) (h : st._update_dataframe df = .ok st1) :
    st1.target_themes = st.target_themes ∧
    st1.other_themes_value = st.other_themes_value ∧
    st1.x_column_name = st.x_column_name ∧
    st1.mo_classifier = st.mo_classifier := by
  unfold MultilabelTraining._update_dataframe at h
  split at h
  · cases h
  · injection h with h
    rw [← h]
    exact ⟨rfl, rfl, rfl, rfl⟩

theorem processChunk_ok (st : MultilabelTraining) (header : List ColName)
    (classes : List Int) (rows : List (List Cell)) (call : PartialFitCall)
    (st1 : MultilabelTraining)
    (h : processChunk st header classes rows = .ok (call, st1)) :
    call.yCols = yColsSelect st ∧ call.classes = classes ∧
    st1.target_themes = st.target_themes ∧
    st1.other_themes_value = st.other_themes_value := by
  unfold processChunk at h
  split at h
  · cases h
  next stu hu =>
  split at h
  · cases h
  next X hX =>
  split at h
  · cases h
  next yf hyf =>
  split at h
  · cases h
  next vec hvec =>
  split at h
  · cases h
  next ym hym =>
  split at h
  · cases h
  next clf hclf =>
  injection h with h
  have hfu := update_dataframe_fields st _ stu hu
  have hcols : yf.columns = yColsSelect stu := DataFrame.subframe_columns _ _ _ hyf
  have hy : yColsSelect stu = yColsSelect st := by
    unfold yColsSelect
    rw [hfu.1, hfu.2.1]
  injection h with h1 h2
  refine ⟨?_, ?_, ?_, ?_⟩
  · rw [← h1, hcols, hy]
  · rw [← h1]
  · rw [← h2]
    exact hfu.1
  · rw [← h2]
    exact hfu.2.1

theorem incFold_calls (header : List ColName) (classes : List Int)
    (chunks : List (List (List Cell))) :
    ∀ st c, c ∈ (incFold header classes st chunks).1 →
      c.classes = classes ∧ c.yCols = yColsSelect st := by
  induction chunks with
  | nil =>
    intro st c hc
    simp [incFold] at hc
  | cons ch rest ih =>
    intro st c hc
    unfold incFold at hc
    cases hp : processChunk st header classes ch with
    | error e => rw [hp] at hc; simp at hc
    | ok p =>
      obtain ⟨call, st1⟩ := p
      rw [hp] at hc
      simp only [List.mem_cons] at hc
      have hpo := processChunk_ok st header classes ch call st1 hp
      rcases hc with rfl | hc
      · exact ⟨hpo.2.1, hpo.1⟩
      · have h2 := ih st1 c hc
        refine ⟨h2.1, ?_⟩
        rw [h2.2]
        unfold yColsSelect
        rw [hpo.2.2.1, hpo.2.2.2]

/-- Claim C2: in every incremental run — CSV or parquet — every label matrix
handed to `partial_fit` carries exactly the same column set in the same
order: the fixed target label list followed by the catch-all label,
regardless of which raw labels appear in the chunk. -/
theorem C2_partial_fit_label_columns_fixed
    (st st2 : MultilabelTraining) (file : CsvFile) (pf : ParquetFile)
    (nrows : Nat) (c c2 : PartialFitCall)
    (hc : c ∈ (st.incremental_train file nrows).1)
    (hc2 : c2 ∈ (st2.incremental_train_with_parquet pf).1) :
    c.yCols = st.target_themes.map ColName.int
      ++ [ColName.int st.other_themes_value] ∧
    c2.yCols = st2.target_themes.map ColName.int
      ++ [ColName.int st2.other_themes_value] := by
  constructor
  · unfold MultilabelTraining.incremental_train at hc
    split at hc
    · simp at hc
    · exact (incFold_calls _ _ _ _ _ hc).2
  · unfold MultilabelTraining.incremental_train_with_parquet at hc2
    split at hc2
    · simp at hc2
    · exact (incFold_calls _ _ _ _ _ hc2).2

/-- Claim C3: `incremental_train` computes the class set once, before the
chunk loop, by scanning the raw label column of the entire source (the
whole CSV's rows), and that same fixed class set is the `classes` argument
of every partial_fit call of the run. -/
theorem C3_classes_scanned_once_and_fixed
    (st : MultilabelTraining) (file : CsvFile) (nrows : Nat)
    (classes : List Int) (freq : List (Int × Nat)) (c : PartialFitCall)
    (hg : get_unique_binarized_labels file.header file.rows st.target_themes
        st.other_themes_value = .ok (classes, freq))
    (hc : c ∈ (st.incremental_train file nrows).1) :
    c.classes = classes := by
  unfold MultilabelTraining.incremental_train at hc
  rw [hg] at hc
  exact (incFold_calls _ _ _ _ _ hc).1

/-- Claim C4: the CSV chunk loop terminates — an empty read at the current
offset produces no further chunk (and `csvChunks` is total, which is the
termination argument itself) — and on a source with no data rows the whole
run returns at once: no error, no partial_fit call, trainer untouched. -/
theorem C4_empty_read_breaks_loop (data : List (List Cell)) (nrows dskip : Nat)
    (st : MultilabelTraining) (file : CsvFile)
    (h : (readChunk data nrows dskip).isEmpty = true)
    (hh : temaCol ∈ file.header) (hr : file.rows = []) :
    csvChunks data nrows dskip = [] ∧
    st.incremental_train file nrows = ([], .ok (), st) := by
  constructor
  · rw [csvChunks_eq, if_pos h]
  · have hidx : (file.header.findIdx? (fun c2 => c2 = temaCol)).isSome := by
      rw [List.findIdx?_isSome]
      exact List.any_eq_true.mpr ⟨temaCol, hh, by simp⟩
    obtain ⟨i, hi⟩ := Option.isSome_iff_exists.mp hidx
    unfold MultilabelTraining.incremental_train
    rw [hr]
    have hch : csvChunks ([] : List (List Cell)) nrows 0 = [] := by
      rw [csvChunks_eq, if_pos (by simp [readChunk])]
    simp [get_unique_binarized_labels, DataFrame.col, hi, List.mapM, List.mapM.loop,
      pure, Except.pure, hch, incFold]

/-- A shared small trainer configuration for the incremental witnesses. -/
def wTrainer : MultilabelTraining :=
  baseTrainer (DataFrame.mk [] []) X_COLUMN_NAME true 4 [5, 6] 4242 true

/-- A three-row CSV source whose `tema` column holds 5, 7, 5. -/
def wFile : CsvFile :=
  { header := [.str X_COLUMN_NAME, temaCol],
    rows := [[.str "aa", .int 5], [.str "bb", .int 7], [.str "cc", .int 5]] }

/-- A two-row-group parquet source with raw labels 7 and 6. -/
def wParquet : ParquetFile :=
  { columns := [.str X_COLUMN_NAME, temaCol],
    row_groups := [[[.str "dd", .int 7]], [[.str "ee", .int 6]]] }

def emptyCall : PartialFitCall := { yCols := [], yMatrix := [], vector := [], classes := [] }

/-- Claim C2 witness: on a concrete two-chunk CSV run and a concrete
two-group parquet run, the first recorded partial_fit call of each carries
the fixed column list [5, 6, 4242]. -/
theorem C2_witness :
    ((wTrainer.incremental_train wFile 2).1.headD emptyCall).yCols =
      [ColName.int 5, ColName.int 6, ColName.int 4242] ∧
    ((wTrainer.incremental_train_with_parquet wParquet).1.headD emptyCall).yCols =
      [ColName.int 5, ColName.int 6, ColName.int 4242] := by
  have h := C2_partial_fit_label_columns_fixed wTrainer wTrainer wFile wParquet 2
    ((wTrainer.incremental_train wFile 2).1.headD emptyCall)
    ((wTrainer.incremental_train_with_parquet wParquet).1.headD emptyCall)
    (by decide) (by decide)
  exact ⟨h.1.trans (by decide), h.2.trans (by decide)⟩

/-- Claim C3 witness: on the same concrete CSV run the class set scanned
from the whole source is [4242, 5] and the first call received exactly it. -/
theorem C3_witness :
    ((wTrainer.incremental_train wFile 2).1.headD emptyCall).classes = [4242, 5] :=
  C3_classes_scanned_once_and_fixed wTrainer wFile 2 [4242, 5] [(7, 1), (5, 2)]
    ((wTrainer.incremental_train wFile 2).1.headD emptyCall)
    (by decide) (by decide)

/-- A CSV source with a header and no data rows. -/
def wEmptyFile : CsvFile := { header := [temaCol], rows := [] }

/-- Claim C4 witness: a read past the end is empty and yields no chunk, and
the run on a data-less source returns cleanly with no calls. -/
theorem C4_witness :
    csvChunks ([] : List (List Cell)) 5 0 = [] ∧
    wTrainer.incremental_train wEmptyFile 5 = ([], .ok (), wTrainer) := by
  have h := C4_empty_read_breaks_loop [] 5 0 wTrainer wEmptyFile
    (by decide) (by decide) rfl
  exact ⟨h.1, h.2⟩

theorem stratifyOk_eq_false {rows : List (List Cell)}
    (h : ∃ r ∈ rows, rows.count r < 2) : stratifyOk rows = false := by
  rcases h with ⟨r, hr, hcount⟩
  rw [← Bool.not_eq_true]
  intro hall
  rw [stratifyOk, List.all_eq_true] at hall
  have := hall r hr
  simp at this
  omega

/-- Claim C5: when some label combination of the held label frame occurs in
fewer than 2 rows, `train(split_df=True)` raises the stratification error:
the failure propagates to the caller and the classifier is never fitted. -/
theorem C5_single_label_combination_raises
    (st : MultilabelTraining) (X : List Cell) (yc : List ColName) (Y : DataFrame)
    (h1 : st.df.col (.str st.x_column_name) = .ok X)
    (h2 : st.y_columns_names = some yc)
    (h3 : st.df.subframe yc = .ok Y)
    (h4 : ∃ r ∈ Y.rows, Y.rows.count r < 2) :
    (st.train true).1 = .error (.valueError .stratification) ∧
    (st.train true).2.mo_classifier = st.mo_classifier := by
  have hs := stratifyOk_eq_false h4
  unfold MultilabelTraining.train
  simp only [h1, h2, h3]
  simp [MultilabelTraining._split, train_test_split, hs]

/-- A dataset whose label combination for theme 6 occurs exactly once. -/
def w5df : DataFrame :=
  { columns := [.str X_COLUMN_NAME, temaCol],
    rows := [[.str "aa", .int 5], [.str "bb", .int 5], [.str "cc", .int 6]] }

/-- The trainer constructed on `w5df`. -/
def w5Trainer : MultilabelTraining :=
  (MultilabelTraining.init w5df X_COLUMN_NAME true 4 [5, 6] 4242 false).toOption.getD
    (baseTrainer w5df X_COLUMN_NAME true 4 [5, 6] 4242 false)

/-- Claim C5 witness: on the concrete trainer whose [0, 1, 0] label
combination occurs once, `train(split_df=True)` raises the stratification
error and leaves the classifier unfitted. -/
theorem C5_witness :
    (w5Trainer.train true).1 = .error (.valueError .stratification) ∧
    (w5Trainer.train true).2.mo_classifier = w5Trainer.mo_classifier :=
  C5_single_label_combination_raises w5Trainer
    [.str "aa", .str "bb", .str "cc"]
    [ColName.int 5, ColName.int 6, ColName.int 4242]
    { columns := [ColName.int 5, ColName.int 6, ColName.int 4242],
      rows := [[.int 1, .int 0, .int 0], [.int 1, .int 0, .int 0],
               [.int 0, .int 1, .int 0]] }
    (by decide) (by decide) (by decide) (by decide)

theorem testIdx_length (n : Nat) : (testIdx n).length = (n + 4) / 5 := by
  induction n with
  | zero => rfl
  | succ n ih =>
    have hsp : testIdx (n + 1) = testIdx n ++ (if n % 5 = 0 then [n] else []) := by
      unfold testIdx
      rw [List.range_succ, List.filter_append]
      congr 1
      by_cases h : n % 5 = 0 <;> simp [h]
    rw [hsp, List.length_append, ih]
    by_cases h : n % 5 = 0 <;> simp [h] <;> omega

theorem trainIdx_length (n : Nat) : (trainIdx n).length = n - (n + 4) / 5 := by
  induction n with
  | zero => rfl
  | succ n ih =>
    have hsp : trainIdx (n + 1) = trainIdx n ++ (if n % 5 = 0 then [] else [n]) := by
      unfold trainIdx
      rw [List.range_succ, List.filter_append]
      congr 1
      by_cases h : n % 5 = 0 <;> simp [h]
    rw [hsp, List.length_append, ih]
    have h5 : (n + 4) / 5 ≤ n := by omega
    by_cases h : n % 5 = 0 <;> simp [h] <;> omega

theorem train_split_partition_fields (st : MultilabelTraining) (X : List Cell)
    (yc : List ColName) (Y : DataFrame)
    (h1 : st.df.col (.str st.x_column_name) = .ok X)
    (h2 : st.y_columns_names = some yc)
    (h3 : st.df.subframe yc = .ok Y)
    (h4 : stratifyOk Y.rows = true) :
    (st.train true).2.X_train =
      some ((trainIdx X.length).map (fun i => X.getD i (.int 0))) ∧
    (st.train true).2.X_test =
      some ((testIdx X.length).map (fun i => X.getD i (.int 0))) ∧
    (st.train true).2.y_train =
      some { columns := Y.columns,
             rows := (trainIdx X.length).map (fun i => Y.rows.getD i []) } ∧
    (st.train true).2.y_test =
      some { columns := Y.columns,
             rows := (testIdx X.length).map (fun i => Y.rows.getD i []) } := by
  unfold MultilabelTraining.train
  simp only [h1, h2, h3, MultilabelTraining._split, train_test_split, h4, if_true]
  repeat' split <;> (try simp)

/-- Claim C7: the full-batch split is a deterministic function of the held
dataset: two trainers holding the same frame, text column and label-column
list produce identical train/test partitions under `train(split_df=True)`
(whatever their other state), the partition is stratified at the fixed seed
42, and its sizes are 80/20 — the held-out test part takes ceil(n/5) of the
n rows and the train part the rest. -/
theorem C7_split_deterministic_80_20 (st1 st2 : MultilabelTraining)
    (X : List Cell) (yc : List ColName) (Y : DataFrame)
    (h1 : st1.df.col (.str st1.x_column_name) = .ok X)
    (h2 : st1.y_columns_names = some yc)
    (h3 : st1.df.subframe yc = .ok Y)
    (h4 : stratifyOk Y.rows = true)
    (hdf : st2.df = st1.df) (hx : st2.x_column_name = st1.x_column_name)
    (hy : st2.y_columns_names = st1.y_columns_names) :
    ((st1.train true).2.X_train = (st2.train true).2.X_train ∧
     (st1.train true).2.X_test = (st2.train true).2.X_test ∧
     (st1.train true).2.y_train = (st2.train true).2.y_train ∧
     (st1.train true).2.y_test = (st2.train true).2.y_test) ∧
    (∃ xte, (st1.train true).2.X_test = some xte ∧
      xte.length = (X.length + 4) / 5) ∧
    (∃ xtr, (st1.train true).2.X_train = some xtr ∧
      xtr.length = X.length - (X.length + 4) / 5) := by
  have p1 := train_split_partition_fields st1 X yc Y h1 h2 h3 h4
  have p2 := train_split_partition_fields st2 X yc Y
    (by rw [hdf, hx]; exact h1) (hy.trans h2) (by rw [hdf]; exact h3) h4
  refine ⟨⟨?_, ?_, ?_, ?_⟩, ?_, ?_⟩
  · rw [p1.1, p2.1]
  · rw [p1.2.1, p2.2.1]
  · rw [p1.2.2.1, p2.2.2.1]
  · rw [p1.2.2.2, p2.2.2.2]
  · exact ⟨_, p1.2.1, by rw [List.length_map, testIdx_length]⟩
  · exact ⟨_, p1.1, by rw [List.length_map, trainIdx_length]⟩

/-- A five-row dataset whose two label combinations occur 3 and 2 times, so
the stratified split is feasible. -/
def w7df : DataFrame :=
  { columns := [.str X_COLUMN_NAME, temaCol],
    rows := [[.str "aa", .int 5], [.str "bb", .int 5], [.str "cc", .int 6],
             [.str "dd", .int 6], [.str "ee", .int 5]] }

/-- The trainer constructed on `w7df`. -/
def w7Trainer : MultilabelTraining :=
  (MultilabelTraining.init w7df X_COLUMN_NAME true 4 [5, 6] 4242 false).toOption.getD
    (baseTrainer w7df X_COLUMN_NAME true 4 [5, 6] 4242 false)

/-- Claim C7 witness: two runs on the concrete five-row trainer agree on all
four partitions, with 1 = ceil(5/5) held-out row and 4 training rows. -/
theorem C7_witness :
    ((w7Trainer.train true).2.X_train = (w7Trainer.train true).2.X_train ∧
     (w7Trainer.train true).2.X_test = (w7Trainer.train true).2.X_test ∧
     (w7Trainer.train true).2.y_train = (w7Trainer.train true).2.y_train ∧
     (w7Trainer.train true).2.y_test = (w7Trainer.train true).2.y_test) ∧
    (∃ xte, (w7Trainer.train true).2.X_test = some xte ∧ xte.length = (5 + 4) / 5) ∧
    (∃ xtr, (w7Trainer.train true).2.X_train = some xtr ∧
      xtr.length = 5 - (5 + 4) / 5) :=
  C7_split_deterministic_80_20 w7Trainer w7Trainer
    [.str "aa", .str "bb", .str "cc", .str "dd", .str "ee"]
    [ColName.int 5, ColName.int 6, ColName.int 4242]
    { columns := [ColName.int 5, ColName.int 6, ColName.int 4242],
      rows := [[.int 1, .int 0, .int 0], [.int 1, .int 0, .int 0],
               [.int 0, .int 1, .int 0], [.int 0, .int 1, .int 0],
               [.int 1, .int 0, .int 0]] }
    (by decide) (by decide) (by decide) (by decide) rfl rfl rfl

end GpamTraining
